import Mathlib

/-!
Verification of the per-frame procedural animation core of the
nextjs-webxr galaxy scene (src/app/page.tsx and
src/app/components/Cube.tsx).

The animation core is embedded shallowly: each useFrame callback becomes a
pure Lean function from the per-object parameters, the shared control
state, the elapsed time and the externally owned mesh state to the new
mesh state.  Real numbers stand for the JavaScript floats; Math.cos and
Math.sin become Real.cos and Real.sin.
-/

open Real

/-- Per-object animation parameters of an OrbitalCube / GlowTrail
(src/app/page.tsx lines 155-171): orbit radius, angular speed, vertical
baseline, self-rotation rate and phase offset. -/
structure AnimationParams where
  orbitRadius : ℝ
  orbitSpeed : ℝ
  orbitHeight : ℝ
  rotationSpeed : ℝ
  orbitOffset : ℝ

/-- The shared mutable control object GalaxyControls
(src/app/page.tsx lines 19-26). -/
structure GalaxyControls where
  speedMultiplier : ℝ
  showParticles : Bool
  showTrails : Bool
  showSparkles : Bool
  showNebula : Bool
  showGlow : Bool

/-- Default value of GalaxyControls (src/app/page.tsx lines 19-26):
multiplier 1, every layer visible. -/
def defaultControls : GalaxyControls :=
  { speedMultiplier := 1
    showParticles := true
    showTrails := true
    showSparkles := true
    showNebula := true
    showGlow := true }

/-- A 3-component vector, as used for mesh position and rotation. -/
structure Vec3 where
  x : ℝ
  y : ℝ
  z : ℝ

/-- The externally owned transform handle of one mesh: its position and
its accumulated rotation. -/
structure MeshState where
  position : Vec3
  rotation : Vec3

/-- A mesh at the origin with no accumulated rotation. -/
def initialMesh : MeshState := ⟨⟨0, 0, 0⟩, ⟨0, 0, 0⟩⟩

/-- The orbital angle computed by the OrbitalCube frame callback
(src/app/page.tsx line 181):
angle = time * orbitSpeed * GalaxyControls.speedMultiplier + orbitOffset. -/
def orbitalAngle (p : AnimationParams) (c : GalaxyControls) (t : ℝ) : ℝ :=
  t * p.orbitSpeed * c.speedMultiplier + p.orbitOffset

/-- The OrbitalCube useFrame callback (src/app/page.tsx lines 175-194):
sets position to the orbital position plus vertical bob and adds the
per-frame self-rotation increments to the accumulated rotation. -/
noncomputable def orbitalCubeFrame (p : AnimationParams) (c : GalaxyControls) (t : ℝ)
    (mesh : MeshState) : MeshState :=
  let angle := orbitalAngle p c t
  let x := Real.cos angle * p.orbitRadius
  let z := Real.sin angle * p.orbitRadius
  let y := p.orbitHeight + Real.sin (t * 2) * 0.3
  { position := ⟨x, y, z⟩
    rotation :=
      ⟨mesh.rotation.x + 0.01 * p.rotationSpeed * c.speedMultiplier,
       mesh.rotation.y + 0.01 * p.rotationSpeed * c.speedMultiplier,
       mesh.rotation.z + 0.01 * p.rotationSpeed * 0.5 * c.speedMultiplier⟩ }

/-- The GlowTrail useFrame callback (src/app/page.tsx lines 96-108): the
angle is time * orbitSpeed + orbitOffset, with no reference to the speed
multiplier; it sets position.x, position.z and rotation.y.  The controls
argument mirrors the fact that the closure could read GalaxyControls but
does not. -/
noncomputable def glowTrailFrame (orbitRadius orbitSpeed orbitOffset : ℝ)
    (c : GalaxyControls) (t : ℝ) (mesh : MeshState) : MeshState :=
  let angle := t * orbitSpeed + orbitOffset
  { position := ⟨Real.cos angle * orbitRadius, mesh.position.y,
                 Real.sin angle * orbitRadius⟩
    rotation := ⟨mesh.rotation.x, angle, mesh.rotation.z⟩ }

/-- The CosmicDust useFrame callback (src/app/page.tsx lines 49-55): adds
the constants 0.001 to rotation.y and 0.0005 to rotation.x, with no
reference to the speed multiplier. -/
def cosmicDustFrame (c : GalaxyControls) (rot : Vec3) : Vec3 :=
  ⟨rot.x + 0.0005, rot.y + 0.001, rot.z⟩

/-- The scale and material opacity of the pulsing glow sphere. -/
structure GlowState where
  scale : ℝ
  opacity : ℝ

/-- The PulsingGlow useFrame callback (src/app/page.tsx lines 127-139):
scale = 1 + sin(t*2)*0.1, opacity = 0.3 + sin(t*3)*0.2. -/
noncomputable def pulsingGlowFrame (t : ℝ) (g : GlowState) : GlowState :=
  { scale := 1 + Real.sin (t * 2) * 0.1
    opacity := 0.3 + Real.sin (t * 3) * 0.2 }

/-- Whether Home mounts the PulsingGlow component.  The JSX conditional
on src/app/page.tsx line 558 reads GalaxyControls.showGlow during render;
because GalaxyControls is a plain module-level object and not React
state, mutating it never re-renders Home, so this decision is made once,
from the controls as they are when Home renders. -/
def homeMountsGlow (c : GalaxyControls) : Bool := c.showGlow

/-- One frame tick for the glow object: a mounted component runs its
useFrame callback, an unmounted one does not exist and leaves the state
untouched. -/
noncomputable def glowSceneFrame (mounted : Bool) (t : ℝ) (g : GlowState) : GlowState :=
  if mounted then pulsingGlowFrame t g else g

/-- The Glow button handler (src/app/page.tsx line 396):
GalaxyControls.showGlow = !GalaxyControls.showGlow. -/
def toggleGlow (c : GalaxyControls) : GalaxyControls :=
  { c with showGlow := !c.showGlow }

/-- The color palette of the interactive Cube
(src/app/components/Cube.tsx line 20). -/
def cubeColors : List String :=
  ["#ff6b35", "#4ecdc4", "#45b7d1", "#96ceb4", "#ffeaa7"]

/-- JavaScript Array.prototype.indexOf: the index of the first
occurrence, or -1 when the element is absent. -/
def jsIndexOf (s : String) : List String → Int
  | [] => -1
  | c :: cs =>
    if c = s then 0
    else
      let r := jsIndexOf s cs
      if r = -1 then -1 else r + 1

/-- The changeColor click handler (src/app/components/Cube.tsx
lines 19-24): nextIndex = (colors.indexOf(color) + 1) % colors.length,
then the color becomes colors[nextIndex]. -/
def changeColor (color : String) : String :=
  let colors := cubeColors
  let currentIndex := jsIndexOf color colors
  let nextIndex := (currentIndex + 1) % (colors.length : Int)
  colors.getD nextIndex.toNat ""

/-- C1: the pose evaluator sets the orbital position to
x = cos(t * orbitSpeed * m + orbitOffset) * orbitRadius,
z = sin(t * orbitSpeed * m + orbitOffset) * orbitRadius,
y = orbitHeight + sin(t * 2) * 0.3; with orbitRadius=2, orbitSpeed=1.5,
orbitOffset=0, m=1 the position at t=0 is x=2, z=0 and at t=pi/1.5 it is
x=-2, z=0; with m=0.1, orbitSpeed=1, orbitOffset=0, t=10 the angle is 1,
not 10. -/
theorem orbital_pose_formula_and_scenarios :
    (∀ (p : AnimationParams) (c : GalaxyControls) (t : ℝ) (mesh : MeshState),
      (orbitalCubeFrame p c t mesh).position.x
          = Real.cos (t * p.orbitSpeed * c.speedMultiplier + p.orbitOffset)
              * p.orbitRadius ∧
      (orbitalCubeFrame p c t mesh).position.z
          = Real.sin (t * p.orbitSpeed * c.speedMultiplier + p.orbitOffset)
              * p.orbitRadius ∧
      (orbitalCubeFrame p c t mesh).position.y
          = p.orbitHeight + Real.sin (t * 2) * 0.3) ∧
    (orbitalCubeFrame ⟨2, 1.5, 0, 1, 0⟩ defaultControls 0 initialMesh).position.x = 2 ∧
    (orbitalCubeFrame ⟨2, 1.5, 0, 1, 0⟩ defaultControls 0 initialMesh).position.z = 0 ∧
    (orbitalCubeFrame ⟨2, 1.5, 0, 1, 0⟩ defaultControls (Real.pi / 1.5)
        initialMesh).position.x = -2 ∧
    (orbitalCubeFrame ⟨2, 1.5, 0, 1, 0⟩ defaultControls (Real.pi / 1.5)
        initialMesh).position.z = 0 ∧
    orbitalAngle ⟨2, 1, 0, 1, 0⟩ { defaultControls with speedMultiplier := 0.1 } 10 = 1 ∧
    (1 : ℝ) ≠ 10 := by
  have hpi : Real.pi / 1.5 * 1.5 * 1 + 0 = Real.pi := by
    field_simp
  refine ⟨fun p c t mesh => ⟨rfl, rfl, rfl⟩, ?_, ?_, ?_, ?_, ?_, by norm_num⟩
  · simp [orbitalCubeFrame, orbitalAngle, defaultControls]
  · simp [orbitalCubeFrame, orbitalAngle, defaultControls]
  · simp only [orbitalCubeFrame, orbitalAngle, defaultControls]
    rw [hpi]
    norm_num [Real.cos_pi]
  · simp only [orbitalCubeFrame, orbitalAngle, defaultControls]
    rw [hpi]
    norm_num [Real.sin_pi]
  · simp only [orbitalAngle]
    norm_num

/-- C8: the pulsing glow scale 1 + sin(t*2)*0.1 always lies in
[0.9, 1.1] and its opacity 0.3 + sin(t*3)*0.2 always lies in [0.1, 0.5]. -/
theorem pulsing_glow_bounds (t : ℝ) (g : GlowState) :
    0.9 ≤ (pulsingGlowFrame t g).scale ∧ (pulsingGlowFrame t g).scale ≤ 1.1 ∧
    0.1 ≤ (pulsingGlowFrame t g).opacity ∧ (pulsingGlowFrame t g).opacity ≤ 0.5 := by
  have h2 := Real.neg_one_le_sin (t * 2)
  have h2' := Real.sin_le_one (t * 2)
  have h3 := Real.neg_one_le_sin (t * 3)
  have h3' := Real.sin_le_one (t * 3)
  simp only [pulsingGlowFrame]
  refine ⟨by nlinarith, by nlinarith, by nlinarith, by nlinarith⟩

/-- C9: each frame the self-rotation increment added to the accumulated
rotation is (0.01 * rotationSpeed * m, 0.01 * rotationSpeed * m,
0.005 * rotationSpeed * m), a constant independent of the elapsed time. -/
theorem rotation_delta_per_frame (p : AnimationParams) (c : GalaxyControls)
    (t : ℝ) (mesh : MeshState) :
    (orbitalCubeFrame p c t mesh).rotation.x
        = mesh.rotation.x + 0.01 * p.rotationSpeed * c.speedMultiplier ∧
    (orbitalCubeFrame p c t mesh).rotation.y
        = mesh.rotation.y + 0.01 * p.rotationSpeed * c.speedMultiplier ∧
    (orbitalCubeFrame p c t mesh).rotation.z
        = mesh.rotation.z + 0.005 * p.rotationSpeed * c.speedMultiplier ∧
    (∀ s : ℝ, (orbitalCubeFrame p c s mesh).rotation
        = (orbitalCubeFrame p c t mesh).rotation) := by
  refine ⟨rfl, rfl, ?_, fun s => rfl⟩
  show mesh.rotation.z + 0.01 * p.rotationSpeed * 0.5 * c.speedMultiplier
      = mesh.rotation.z + 0.005 * p.rotationSpeed * c.speedMultiplier
  ring

/-- C4: for every elapsed time, every nonnegative orbit radius and every
orbit speed, offset and multiplier, the computed position satisfies
x^2 + z^2 = orbitRadius^2: the point lies on the circle of the configured
radius. -/
theorem orbital_on_circle (p : AnimationParams) (c : GalaxyControls)
    (t : ℝ) (mesh : MeshState) (hr : 0 ≤ p.orbitRadius) :
    (orbitalCubeFrame p c t mesh).position.x ^ 2
        + (orbitalCubeFrame p c t mesh).position.z ^ 2
      = p.orbitRadius ^ 2 := by
  have h := Real.sin_sq_add_cos_sq (orbitalAngle p c t)
  show (Real.cos (orbitalAngle p c t) * p.orbitRadius) ^ 2
      + (Real.sin (orbitalAngle p c t) * p.orbitRadius) ^ 2 = p.orbitRadius ^ 2
  nlinarith [h]

/-- Witness for orbital_on_circle: the inner cube, radius 2, at t = 0. -/
theorem orbital_on_circle_witness :
    0 ≤ (⟨2, 1.5, 0.5, 2, 0⟩ : AnimationParams).orbitRadius ∧
    (orbitalCubeFrame ⟨2, 1.5, 0.5, 2, 0⟩ defaultControls 0 initialMesh).position.x ^ 2
        + (orbitalCubeFrame ⟨2, 1.5, 0.5, 2, 0⟩ defaultControls 0 initialMesh).position.z ^ 2
      = (⟨2, 1.5, 0.5, 2, 0⟩ : AnimationParams).orbitRadius ^ 2 :=
  ⟨by norm_num,
   orbital_on_circle ⟨2, 1.5, 0.5, 2, 0⟩ defaultControls 0 initialMesh (by norm_num)⟩

/-- C6: when the speed multiplier is 0 the horizontal coordinates are
constant over time (the angle is frozen at the phase offset) while the
vertical bob still oscillates, rising by exactly 0.3 from t = 0 to
t = pi/4, because the bob term is not scaled by the multiplier. -/
theorem zero_multiplier_freezes_orbit (p : AnimationParams)
    (c : GalaxyControls) (hm : c.speedMultiplier = 0) :
    (∀ (t₁ t₂ : ℝ) (mesh₁ mesh₂ : MeshState),
      (orbitalCubeFrame p c t₁ mesh₁).position.x
          = (orbitalCubeFrame p c t₂ mesh₂).position.x ∧
      (orbitalCubeFrame p c t₁ mesh₁).position.z
          = (orbitalCubeFrame p c t₂ mesh₂).position.z) ∧
    (∀ mesh : MeshState,
      (orbitalCubeFrame p c (Real.pi / 4) mesh).position.y
        = (orbitalCubeFrame p c 0 mesh).position.y + 0.3) := by
  constructor
  · intro t₁ t₂ mesh₁ mesh₂
    constructor <;>
      simp [orbitalCubeFrame, orbitalAngle, hm]
  · intro mesh
    show p.orbitHeight + Real.sin (Real.pi / 4 * 2) * 0.3
        = p.orbitHeight + Real.sin (0 * 2) * 0.3 + 0.3
    have : Real.pi / 4 * 2 = Real.pi / 2 := by ring
    rw [this]
    simp [Real.sin_pi_div_two]

/-- Witness for zero_multiplier_freezes_orbit: the inner cube with the
multiplier set to 0, evaluated at t = 1 and t = 2. -/
theorem zero_multiplier_freezes_orbit_witness :
    ({ defaultControls with speedMultiplier := 0 } : GalaxyControls).speedMultiplier = 0 ∧
    ((orbitalCubeFrame ⟨2, 1.5, 0.5, 2, 0⟩ { defaultControls with speedMultiplier := 0 } 1
        initialMesh).position.x
      = (orbitalCubeFrame ⟨2, 1.5, 0.5, 2, 0⟩ { defaultControls with speedMultiplier := 0 } 2
        initialMesh).position.x ∧
     (orbitalCubeFrame ⟨2, 1.5, 0.5, 2, 0⟩ { defaultControls with speedMultiplier := 0 } 1
        initialMesh).position.z
      = (orbitalCubeFrame ⟨2, 1.5, 0.5, 2, 0⟩ { defaultControls with speedMultiplier := 0 } 2
        initialMesh).position.z) :=
  ⟨rfl,
   (zero_multiplier_freezes_orbit ⟨2, 1.5, 0.5, 2, 0⟩
      { defaultControls with speedMultiplier := 0 } rfl).1 1 2 initialMesh initialMesh⟩

/-- Counterexample to C5: with orbitRadius=2, orbitSpeed=1.5, orbitHeight=0,
orbitOffset=0 and multiplier 1, the pose at t = 0 + 2*pi/(1.5*1) differs
from the pose at t = 0: the vertical bob sin(t*2)*0.3 has its own period
pi and is not aligned with the orbital period. -/
theorem orbital_pose_period_counterexample :
    (orbitalCubeFrame ⟨2, 1.5, 0, 1, 0⟩ defaultControls
        (0 + 2 * Real.pi / (1.5 * 1)) initialMesh).position.y
      ≠ (orbitalCubeFrame ⟨2, 1.5, 0, 1, 0⟩ defaultControls 0 initialMesh).position.y := by
  show (0 : ℝ) + Real.sin ((0 + 2 * Real.pi / (1.5 * 1)) * 2) * 0.3
      ≠ 0 + Real.sin (0 * 2) * 0.3
  have h83 : ((0 : ℝ) + 2 * Real.pi / (1.5 * 1)) * 2 = 2 * Real.pi / 3 + 2 * Real.pi := by
    field_simp
    ring
  have hpos : 0 < Real.sin ((0 + 2 * Real.pi / (1.5 * 1)) * 2) := by
    rw [h83, Real.sin_add_two_pi]
    apply Real.sin_pos_of_pos_of_lt_pi
    · positivity
    · linarith [Real.pi_pos]
  simp only [zero_mul, Real.sin_zero]
  nlinarith [hpos]

/-- C5 amended: when orbitSpeed * speedMultiplier is nonzero, the
horizontal position (x, z) and the rotation increment repeat with period
2*pi/(orbitSpeed * speedMultiplier); the vertical bob instead has its own
period pi, so the full pose is not periodic with the orbital period in
general. -/
theorem orbital_pose_period_amended (p : AnimationParams) (c : GalaxyControls)
    (t : ℝ) (mesh : MeshState) (h : p.orbitSpeed * c.speedMultiplier ≠ 0) :
    (orbitalCubeFrame p c (t + 2 * Real.pi / (p.orbitSpeed * c.speedMultiplier))
        mesh).position.x = (orbitalCubeFrame p c t mesh).position.x ∧
    (orbitalCubeFrame p c (t + 2 * Real.pi / (p.orbitSpeed * c.speedMultiplier))
        mesh).position.z = (orbitalCubeFrame p c t mesh).position.z ∧
    (orbitalCubeFrame p c (t + 2 * Real.pi / (p.orbitSpeed * c.speedMultiplier))
        mesh).rotation = (orbitalCubeFrame p c t mesh).rotation ∧
    (orbitalCubeFrame p c (t + Real.pi) mesh).position.y
      = (orbitalCubeFrame p c t mesh).position.y := by
  have ha : orbitalAngle p c (t + 2 * Real.pi / (p.orbitSpeed * c.speedMultiplier))
      = orbitalAngle p c t + 2 * Real.pi := by
    simp only [orbitalAngle]
    field_simp
    ring
  refine ⟨?_, ?_, rfl, ?_⟩
  · show Real.cos (orbitalAngle p c (t + 2 * Real.pi / (p.orbitSpeed * c.speedMultiplier)))
        * p.orbitRadius = Real.cos (orbitalAngle p c t) * p.orbitRadius
    rw [ha, Real.cos_add_two_pi]
  · show Real.sin (orbitalAngle p c (t + 2 * Real.pi / (p.orbitSpeed * c.speedMultiplier)))
        * p.orbitRadius = Real.sin (orbitalAngle p c t) * p.orbitRadius
    rw [ha, Real.sin_add_two_pi]
  · show p.orbitHeight + Real.sin ((t + Real.pi) * 2) * 0.3
        = p.orbitHeight + Real.sin (t * 2) * 0.3
    have h2 : (t + Real.pi) * 2 = t * 2 + 2 * Real.pi := by ring
    rw [h2, Real.sin_add_two_pi]

/-- Witness for orbital_pose_period_amended: the inner cube at t = 0. -/
theorem orbital_pose_period_amended_witness :
    (⟨2, 1.5, 0.5, 2, 0⟩ : AnimationParams).orbitSpeed
        * defaultControls.speedMultiplier ≠ 0 ∧
    ((orbitalCubeFrame ⟨2, 1.5, 0.5, 2, 0⟩ defaultControls
        (0 + 2 * Real.pi / ((⟨2, 1.5, 0.5, 2, 0⟩ : AnimationParams).orbitSpeed
          * defaultControls.speedMultiplier)) initialMesh).position.x
      = (orbitalCubeFrame ⟨2, 1.5, 0.5, 2, 0⟩ defaultControls 0 initialMesh).position.x ∧
    (orbitalCubeFrame ⟨2, 1.5, 0.5, 2, 0⟩ defaultControls
        (0 + 2 * Real.pi / ((⟨2, 1.5, 0.5, 2, 0⟩ : AnimationParams).orbitSpeed
          * defaultControls.speedMultiplier)) initialMesh).position.z
      = (orbitalCubeFrame ⟨2, 1.5, 0.5, 2, 0⟩ defaultControls 0 initialMesh).position.z ∧
    (orbitalCubeFrame ⟨2, 1.5, 0.5, 2, 0⟩ defaultControls
        (0 + 2 * Real.pi / ((⟨2, 1.5, 0.5, 2, 0⟩ : AnimationParams).orbitSpeed
          * defaultControls.speedMultiplier)) initialMesh).rotation
      = (orbitalCubeFrame ⟨2, 1.5, 0.5, 2, 0⟩ defaultControls 0 initialMesh).rotation ∧
    (orbitalCubeFrame ⟨2, 1.5, 0.5, 2, 0⟩ defaultControls (0 + Real.pi)
        initialMesh).position.y
      = (orbitalCubeFrame ⟨2, 1.5, 0.5, 2, 0⟩ defaultControls 0 initialMesh).position.y) :=
  ⟨by norm_num [defaultControls],
   orbital_pose_period_amended ⟨2, 1.5, 0.5, 2, 0⟩ defaultControls 0 initialMesh
     (by norm_num [defaultControls])⟩

/-- Counterexample to C7: with orbitRadius=0 and orbitHeight=0 the
position at t = pi/4 has y = 0.3, not the claimed fixed orbitHeight = 0:
the vertical bob keeps oscillating even when the orbit radius is zero. -/
theorem orbit_radius_zero_counterexample :
    (orbitalCubeFrame ⟨0, 1, 0, 1, 0⟩ defaultControls (Real.pi / 4)
        initialMesh).position.y ≠ (⟨0, 1, 0, 1, 0⟩ : AnimationParams).orbitHeight := by
  show (0 : ℝ) + Real.sin (Real.pi / 4 * 2) * 0.3 ≠ 0
  have h : Real.pi / 4 * 2 = Real.pi / 2 := by ring
  rw [h, Real.sin_pi_div_two]
  norm_num

/-- C7 amended: orbitRadius = 0 collapses the horizontal orbit to
x = z = 0 for every t, while y keeps bobbing within 0.3 of orbitHeight
and the self-rotation increment continues unchanged; this is ordinary
total behavior, not an error. -/
theorem orbit_radius_zero_amended (p : AnimationParams) (c : GalaxyControls)
    (t : ℝ) (mesh : MeshState) (hr : p.orbitRadius = 0) :
    (orbitalCubeFrame p c t mesh).position.x = 0 ∧
    (orbitalCubeFrame p c t mesh).position.z = 0 ∧
    |(orbitalCubeFrame p c t mesh).position.y - p.orbitHeight| ≤ 0.3 ∧
    (orbitalCubeFrame p c t mesh).rotation.x
      = mesh.rotation.x + 0.01 * p.rotationSpeed * c.speedMultiplier := by
  refine ⟨?_, ?_, ?_, rfl⟩
  · show Real.cos (orbitalAngle p c t) * p.orbitRadius = 0
    rw [hr, mul_zero]
  · show Real.sin (orbitalAngle p c t) * p.orbitRadius = 0
    rw [hr, mul_zero]
  · show |p.orbitHeight + Real.sin (t * 2) * 0.3 - p.orbitHeight| ≤ 0.3
    have hs := Real.neg_one_le_sin (t * 2)
    have hs' := Real.sin_le_one (t * 2)
    rw [abs_le]
    constructor <;> nlinarith

/-- Witness for orbit_radius_zero_amended: radius 0, height 2, at t = 1. -/
theorem orbit_radius_zero_amended_witness :
    (⟨0, 1, 2, 1, 0⟩ : AnimationParams).orbitRadius = 0 ∧
    ((orbitalCubeFrame ⟨0, 1, 2, 1, 0⟩ defaultControls 1 initialMesh).position.x = 0 ∧
    (orbitalCubeFrame ⟨0, 1, 2, 1, 0⟩ defaultControls 1 initialMesh).position.z = 0 ∧
    |(orbitalCubeFrame ⟨0, 1, 2, 1, 0⟩ defaultControls 1 initialMesh).position.y
        - (⟨0, 1, 2, 1, 0⟩ : AnimationParams).orbitHeight| ≤ 0.3 ∧
    (orbitalCubeFrame ⟨0, 1, 2, 1, 0⟩ defaultControls 1 initialMesh).rotation.x
      = initialMesh.rotation.x
        + 0.01 * (⟨0, 1, 2, 1, 0⟩ : AnimationParams).rotationSpeed
          * defaultControls.speedMultiplier) :=
  ⟨rfl, orbit_radius_zero_amended ⟨0, 1, 2, 1, 0⟩ defaultControls 1 initialMesh rfl⟩

/-- Counterexample to C3: the glow trail evaluated at t = 1 with
orbitSpeed 1.5 computes exactly the same pose under multiplier 1 and
multiplier 5, with angular term 1.5 in both cases (a proportional change
would give 5 * 1.5), and the cosmic dust increment is likewise identical
under both multipliers: the multiplier is not applied to these objects. -/
theorem multiplier_scope_counterexample :
    glowTrailFrame 2 1.5 0 defaultControls 1 initialMesh
      = glowTrailFrame 2 1.5 0 { defaultControls with speedMultiplier := 5 } 1
          initialMesh ∧
    (glowTrailFrame 2 1.5 0 defaultControls 1 initialMesh).rotation.y = 1.5 ∧
    cosmicDustFrame defaultControls ⟨0, 0, 0⟩
      = cosmicDustFrame { defaultControls with speedMultiplier := 5 } ⟨0, 0, 0⟩ ∧
    (5 : ℝ) * 1.5 ≠ 1.5 := by
  refine ⟨rfl, ?_, rfl, by norm_num⟩
  show (1 : ℝ) * 1.5 + 0 = 1.5
  norm_num

/-- C3 amended: the speed multiplier scales the orbital cubes' angular
terms (the orbital angle net of the phase offset, and each per-frame
rotation increment, are the multiplier times a multiplier-free factor),
but the glow trails and the cosmic dust field compute their per-frame
updates independently of the multiplier. -/
theorem multiplier_scope_amended :
    (∀ (p : AnimationParams) (c : GalaxyControls) (t : ℝ),
      orbitalAngle p c t - p.orbitOffset = c.speedMultiplier * (t * p.orbitSpeed)) ∧
    (∀ (p : AnimationParams) (c : GalaxyControls) (t : ℝ) (mesh : MeshState),
      (orbitalCubeFrame p c t mesh).rotation.x - mesh.rotation.x
          = c.speedMultiplier * (0.01 * p.rotationSpeed) ∧
      (orbitalCubeFrame p c t mesh).rotation.z - mesh.rotation.z
          = c.speedMultiplier * (0.005 * p.rotationSpeed)) ∧
    (∀ (r s o : ℝ) (c c' : GalaxyControls) (t : ℝ) (mesh : MeshState),
      glowTrailFrame r s o c t mesh = glowTrailFrame r s o c' t mesh) ∧
    (∀ (c c' : GalaxyControls) (rot : Vec3),
      cosmicDustFrame c rot = cosmicDustFrame c' rot) := by
  refine ⟨fun p c t => ?_, fun p c t mesh => ⟨?_, ?_⟩,
          fun r s o c c' t mesh => rfl, fun c c' rot => rfl⟩
  · simp only [orbitalAngle]
    ring
  · show mesh.rotation.x + 0.01 * p.rotationSpeed * c.speedMultiplier - mesh.rotation.x
        = c.speedMultiplier * (0.01 * p.rotationSpeed)
    ring
  · show mesh.rotation.z + 0.01 * p.rotationSpeed * 0.5 * c.speedMultiplier
          - mesh.rotation.z
        = c.speedMultiplier * (0.005 * p.rotationSpeed)
    ring

/-- C2 (reflecting the code as written): Home renders once with showGlow
true, so PulsingGlow is mounted; clicking the Glow button flips the
shared flag to false, and a re-render would unmount the glow, but
GalaxyControls is not React state, so Home never re-renders and the
mounted set keeps its mount-time value; on the frame after the toggle the
glow scale is still mutated (from 1 at t = 0 to 1.1 at t = pi/4), so the
pose does not stay frozen at its frame-N value. -/
theorem glow_toggle_keeps_mutating :
    (toggleGlow defaultControls).showGlow = false ∧
    homeMountsGlow (toggleGlow defaultControls) = false ∧
    homeMountsGlow defaultControls = true ∧
    (glowSceneFrame (homeMountsGlow defaultControls) (Real.pi / 4)
        (glowSceneFrame (homeMountsGlow defaultControls) 0 ⟨1, 0.3⟩)).scale
      ≠ (glowSceneFrame (homeMountsGlow defaultControls) 0 ⟨1, 0.3⟩).scale := by
  refine ⟨rfl, rfl, rfl, ?_⟩
  show (1 : ℝ) + Real.sin (Real.pi / 4 * 2) * 0.1 ≠ 1 + Real.sin (0 * 2) * 0.1
  have h : Real.pi / 4 * 2 = Real.pi / 2 := by ring
  rw [h, Real.sin_pi_div_two]
  simp only [zero_mul, Real.sin_zero]
  norm_num

/-- A string absent from a list has JavaScript index -1. -/
theorem jsIndexOf_of_not_mem (s : String) :
    ∀ l : List String, s ∉ l → jsIndexOf s l = -1 := by
  intro l
  induction l with
  | nil => intro _; rfl
  | cons c cs ih =>
    intro hs
    have hc : ¬ c = s := fun h => hs (h ▸ List.mem_cons_self c cs)
    have hcs : s ∉ cs := fun h => hs (List.mem_cons_of_mem c h)
    simp [jsIndexOf, if_neg hc, ih hcs]

/-- A click on a color outside the palette resets to the first palette
entry: indexOf returns -1, so the next index is (-1 + 1) % 5 = 0. -/
theorem changeColor_of_not_mem (c : String) (hc : c ∉ cubeColors) :
    changeColor c = "#ff6b35" := by
  simp only [changeColor]
  rw [jsIndexOf_of_not_mem c cubeColors hc]
  decide

/-- C10: every click on the interactive Cube yields a palette color;
five successive clicks starting at any palette color return to that same
color; and a click on a color outside the palette resets to the first
palette entry. -/
theorem cube_color_cycle :
    (∀ c : String, changeColor c ∈ cubeColors) ∧
    (∀ c ∈ cubeColors, changeColor^[5] c = c) ∧
    (∀ c : String, c ∉ cubeColors → changeColor c = "#ff6b35") := by
  refine ⟨?_, ?_, fun c hc => changeColor_of_not_mem c hc⟩
  · intro c
    by_cases hc : c ∈ cubeColors
    · simp only [cubeColors, List.mem_cons, List.not_mem_nil, or_false] at hc
      rcases hc with h | h | h | h | h <;> subst h <;> decide
    · rw [changeColor_of_not_mem c hc]
      decide
  · intro c hc
    simp only [cubeColors, List.mem_cons, List.not_mem_nil, or_false] at hc
    rcases hc with h | h | h | h | h <;> subst h <;> decide

/-- Witness for cube_color_cycle: five clicks starting from the second
palette color return to it. -/
theorem cube_color_cycle_witness :
    "#4ecdc4" ∈ cubeColors ∧ changeColor^[5] "#4ecdc4" = "#4ecdc4" :=
  ⟨by decide, cube_color_cycle.2.1 "#4ecdc4" (by decide)⟩
